import Mathlib

/-!
Verification of the snow-17 energy-balance evaluator (src/snow_17.py).

The whole program is one sequential chain of element-wise operations on
2-D numeric grids.  Every step of the chain is therefore embedded as a
real-valued function of the values the step reads at one fixed cell:
a grid-level statement "for every cell P" becomes a universally
quantified statement over the cell values.  Machine floats are embedded
as real numbers; np.log is the natural logarithm, np.exp the real
exponential, and the Python expression x ** 0.5 (applied in the source
only to nonnegative quantities) is Real.sqrt.  Real division by zero is
the Lean junk value 0; the one place this matters (R_i at air_tmp = 0,
where numpy produces NaN so that neither mask of the zeta update fires
and zeta keeps its zero initialization) is modelled faithfully because
the Lean value R_i = 0 also selects the zero fall-through branch.

The resolution-selected standard-atmosphere grid values are passed in as
the two cell values pa500 and pa30 (class attributes P_A_500 and P_A_30
are precomputed from external rasters, outside the numeric core).

A second, shape-level model near the end of the file embeds the numpy
broadcasting behaviour of the same chain, for the claims about shape
errors.
-/

namespace Snow17

noncomputable section

/-- Class constant Z_A (src line 19), cm. -/
def Z_A : ℝ := 1000

/-- Class constant Z_0 (src line 20), cm. -/
def Z_0 : ℝ := 0.01

/-- Class constant L_S (src line 21), latent heat of sublimation. -/
def L_S : ℝ := 677

/-- Class constant RHO_W (src line 22), density of water. -/
def RHO_W : ℝ := 1

/-- Class constant R_SPECIFIC (src line 23), gas constant of dry air. -/
def R_SPECIFIC : ℝ := 287.058

/-- Class constant K (src line 24), von Karman constant. -/
def K : ℝ := 0.40

/-- Class constant PA_2_MB (src line 29). -/
def PA_2_MB : ℝ := 0.01

/-- Standalone module-level function calc_rh (src lines 7-9). -/
def calc_rh (air_tmp pres spfh : ℝ) : ℝ :=
  0.263 * pres * spfh * (1 / Real.exp (17.67 * air_tmp / (air_tmp + 243.5)))

/-- Method calc_relative_humidity (src lines 57-62): the attribute rh. -/
def rh (air_tmp pres spfh : ℝ) : ℝ :=
  0.263 * pres * spfh * (1 / Real.exp (17.67 * air_tmp / (air_tmp + 243.5)))

/-- Method calc_air_saturate_vapor_pressure (src lines 65-70). -/
def e_sat_air (air_tmp : ℝ) : ℝ :=
  611.2 * Real.exp (17.67 * air_tmp / (243.5 + air_tmp))

/-- Method calc_snow_saturate_vapor_pressure (src lines 72-77). -/
def e_sat_snow (snow_tmp : ℝ) : ℝ :=
  611.2 * Real.exp (17.67 * snow_tmp / (243.5 + snow_tmp))

/-- Method calc_air_vapor_pressure (src lines 79-84). -/
def e_a (air_tmp pres spfh : ℝ) : ℝ :=
  rh air_tmp pres spfh / 100.0 * e_sat_air air_tmp

/-- Method calc_air_density (src lines 86-91). -/
def rho_a (air_tmp pres : ℝ) : ℝ :=
  pres / (R_SPECIFIC * (air_tmp + 273.16)) / 1000.0

/-- Method calc_b (src lines 93-103): the branch on res selects the
standard-atmosphere grid; every res other than 500 takes the else arm
and uses P_A_30. -/
def b (res : ℤ) (pa500 pa30 air_tmp pres : ℝ) : ℝ :=
  if res = 500 then
    0.622 * rho_a air_tmp pres / (pa500 * RHO_W) * 10 ^ (6 : ℕ)
      * (K ^ 2 / Real.log (Z_A / Z_0) ^ 2)
  else
    0.622 * rho_a air_tmp pres / (pa30 * RHO_W) * 10 ^ (6 : ℕ)
      * (K ^ 2 / Real.log (Z_A / Z_0) ^ 2)

/-- Method calc_FU (src lines 105-110). -/
def fu (res : ℤ) (pa500 pa30 air_tmp pres wind : ℝ) : ℝ :=
  b res pa500 pa30 air_tmp pres * wind * 3.6

/-- Method calc_exchange_coefficient (src lines 112-117). -/
def d_h_e (wind : ℝ) : ℝ :=
  K ^ 2 * wind / Real.log (Z_A / Z_0) ^ 2

/-- The local gamma grid of calc_unstable_correction (src line 124). -/
def gamma (wind : ℝ) : ℝ :=
  5.3 * 9.4 * d_h_e wind / wind * Real.sqrt (Z_A / Z_0)

/-- The local R_i grid of calc_unstable_correction (src line 125). -/
def R_i (air_tmp wind : ℝ) : ℝ :=
  2 * 10 * Z_A / 100 * air_tmp / (air_tmp * (27.78 * wind) ^ 2)

/-- Method calc_unstable_correction (src lines 119-130): zeta starts as
np.zeros, the cells with R_i > 0 get the stable value, the cells with
R_i < 0 get the unstable value, and the remaining cells keep 0. -/
def zeta (air_tmp wind : ℝ) : ℝ :=
  if R_i air_tmp wind > 0 then
    1 / (1 + 4.7 * R_i air_tmp wind) ^ 2
  else if R_i air_tmp wind < 0 then
    1 - 9.4 * R_i air_tmp wind
      / (1 + gamma wind * Real.sqrt |R_i air_tmp wind|)
  else 0

/-- Method calc_atm_emissivity (src lines 132-137). -/
def atm_emissivity (air_tmp dlw : ℝ) : ℝ :=
  dlw / ((air_tmp + 273.16) ^ 4 * 5.67 * (10 : ℝ) ^ (-8 : ℤ))

/-- Method calc_weighted_emissivity (src lines 139-144). -/
def weighted_emissivity (fc air_tmp dlw : ℝ) : ℝ :=
  (1.0 - fc) * atm_emissivity air_tmp dlw + fc * 0.98

/-- Method calc_LH (src lines 146-152): Q_e times 11.62. -/
def LH (res : ℤ) (pa500 pa30 air_tmp snow_tmp pres spfh wind : ℝ) : ℝ :=
  zeta air_tmp wind * L_S * RHO_W / 10.0
      * fu res pa500 pa30 air_tmp pres wind
      * (e_a air_tmp pres spfh - e_sat_snow snow_tmp) * PA_2_MB
    * 11.62

/-- Method calc_SH (src lines 154-163): Q_h times 11.62, with the same
res branch as calc_b. -/
def SH (res : ℤ) (pa500 pa30 air_tmp snow_tmp pres wind : ℝ) : ℝ :=
  (if res = 500 then
    zeta air_tmp wind * RHO_W / 10.0 * 0.24 * pa500 / 0.622
      * fu res pa500 pa30 air_tmp pres wind * (air_tmp - snow_tmp)
  else
    zeta air_tmp wind * RHO_W / 10.0 * 0.24 * pa30 / 0.622
      * fu res pa500 pa30 air_tmp pres wind * (air_tmp - snow_tmp))
    * 11.62

/-- Method calc_DLW (src lines 165-170). -/
def CDLW (fc air_tmp dlw : ℝ) : ℝ :=
  dlw * weighted_emissivity fc air_tmp dlw / atm_emissivity air_tmp dlw

/-- Method calc_ULW (src lines 172-177): a function of snow_tmp alone. -/
def ULW (snow_tmp : ℝ) : ℝ :=
  0.98 * 5.67 * (10 : ℝ) ^ (-8 : ℤ) * (snow_tmp + 273.16) ^ 4

/-- The common resolution-independent factor of the sensible heat. -/
def SHcore (a s p w : ℝ) : ℝ :=
  zeta a w * rho_a a p * (K ^ 2 / Real.log (Z_A / Z_0) ^ 2) * w * (a - s)

/-- The common resolution-independent factor of the latent heat. -/
def LHcore (a s p q w : ℝ) : ℝ :=
  zeta a w * rho_a a p * (K ^ 2 / Real.log (Z_A / Z_0) ^ 2) * w
    * (e_a a p q - e_sat_snow s)

/-- The constant multiplier of the latent heat. -/
def lhconst : ℝ :=
  L_S * 0.622 * 10 ^ (6 : ℕ) * 3.6 * PA_2_MB * 11.62 / 10

end

/-- The failure taxonomy named by the spec (section 7). -/
inductive EvalError
  | shapeMismatch
  | unsupportedResolution
  | resourceLoad
deriving DecidableEq

/-- Method snow17.__init__ (src lines 31-55): the canopy raster for the
requested resolution is read through the external collaborator
(gdal.Open of vegetation/amr_forest_density_<res>m.tif, here a partial
map from the resolution value to the raster content whose absence is a
resource-load failure surfaced unchanged), divided by 100, and the
numeric chain runs to its four outputs.  The source performs no
validation of the resolution value anywhere, so the load is the only
failure point that depends on it. -/
noncomputable def construct (res : ℤ) (canopyRaster : ℤ → Option ℝ)
    (pa500 pa30 air_tmp snow_tmp pres spfh wind dlw : ℝ) :
    Except EvalError (ℝ × ℝ × ℝ × ℝ) :=
  match canopyRaster res with
  | none => .error .resourceLoad
  | some raw =>
      .ok (LH res pa500 pa30 air_tmp snow_tmp pres spfh wind,
           SH res pa500 pa30 air_tmp snow_tmp pres wind,
           CDLW (raw / 100.0) air_tmp dlw,
           ULW snow_tmp)

/-- Whether a construction outcome succeeded. -/
def constructOk {α : Type} : Except EvalError α → Bool
  | .ok _ => true
  | .error _ => false

/-- A 2-D numpy array shape: rows and columns. -/
abbrev Shape := ℕ × ℕ

/-- Numpy broadcasting of a single dimension: equal extents agree, an
extent of 1 stretches to the other, anything else is incompatible. -/
def bcastDim (m n : ℕ) : Option ℕ :=
  if m = n then some m
  else if m = 1 then some n
  else if n = 1 then some m
  else none

/-- Numpy broadcasting of two 2-D shapes, dimension by dimension. -/
def bcast (s t : Shape) : Option Shape := do
  let r ← bcastDim s.1 t.1
  let c ← bcastDim s.2 t.2
  pure (r, c)

/-- The shapes of the six meteorological grids, the canopy grid and the
standard-pressure grid entering one evaluation. -/
structure GridShapes where
  air_tmp : Shape
  snow_tmp : Shape
  pres : Shape
  spfh : Shape
  wind : Shape
  dlw : Shape
  F_c : Shape
  P_A : Shape

/-- Shapes of calc_relative_humidity through calc_FU (src lines 57-110):
every step is element-wise with scalar constants, so the shape of each
intermediate grid is the numpy broadcast of the shapes of the grids the
step combines, in the source order of operations; a value error
surfaces exactly where a broadcast is incompatible.  Returns the shapes
of e_a and fu (the ones the flux steps read). -/
def metShapes (g : GridShapes) : Option (Shape × Shape) := do
  let ps ← bcast g.pres g.spfh
  let rhS ← bcast ps g.air_tmp
  let eaS ← bcast rhS g.air_tmp
  let rhoS ← bcast g.pres g.air_tmp
  let bS ← bcast rhoS g.P_A
  let fuS ← bcast bS g.wind
  pure (eaS, fuS)

/-- Shape of calc_unstable_correction (src lines 119-130): zeta is
np.zeros of the shape of R_i; the masked update indexes gamma with the
where-indices of R_i, always in bounds when the two shapes agree, while
a disagreement can raise an indexing error unless the mask is empty and
is modelled conservatively as a failure. -/
def zetaShape (g : GridShapes) : Option Shape := do
  let gammaS ← bcast g.wind g.wind
  let aw ← bcast g.air_tmp g.wind
  let riS ← bcast g.air_tmp aw
  if gammaS = riS then some riS else none

/-- Shapes of calc_atm_emissivity and calc_weighted_emissivity (src
lines 132-144). -/
def emisShapes (g : GridShapes) : Option (Shape × Shape) := do
  let atmS ← bcast g.dlw g.air_tmp
  let fca ← bcast g.F_c atmS
  let weS ← bcast fca g.F_c
  pure (atmS, weS)

/-- Shape of calc_LH (src lines 146-152). -/
def lhShape (g : GridShapes) (zetaS fuS eaS : Shape) : Option Shape := do
  let zf ← bcast zetaS fuS
  let es ← bcast eaS g.snow_tmp
  bcast zf es

/-- Shape of calc_SH (src lines 154-163). -/
def shShape (g : GridShapes) (zetaS fuS : Shape) : Option Shape := do
  let zp ← bcast zetaS g.P_A
  let zpf ← bcast zp fuS
  let ts ← bcast g.air_tmp g.snow_tmp
  bcast zpf ts

/-- Shape of calc_DLW (src lines 165-170); calc_ULW keeps the shape of
snow_tmp. -/
def cdlwShape (g : GridShapes) (weS atmS : Shape) : Option Shape := do
  let dw ← bcast g.dlw weS
  bcast dw atmS

/-- Shape-level embedding of the whole evaluation chain of __init__
(src lines 41-55), in source order, yielding the shapes of the four
output grids LH, SH, CDLW and ULW. -/
def evalShapes (g : GridShapes) : Option (Shape × Shape × Shape × Shape) := do
  let mets ← metShapes g
  let zetaS ← zetaShape g
  let emis ← emisShapes g
  let lhS ← lhShape g zetaS mets.2 mets.1
  let shS ← shShape g zetaS mets.2
  let cdlwS ← cdlwShape g emis.2 emis.1
  pure (lhS, shS, cdlwS, g.snow_tmp)

end Snow17

namespace Snow17

/-- C9: the standalone calc_rh and the internal relative-humidity
computation are the same function of air_tmp, pres and spfh. -/
theorem c9_calc_rh_refines_internal_rh (air_tmp pres spfh : ℝ) :
    calc_rh air_tmp pres spfh = rh air_tmp pres spfh := rfl

/-- C10: both saturation vapor pressures are strictly increasing in
their temperature argument on the range -40 to 40 degrees C. -/
theorem c10_e_sat_strict_mono (t₁ t₂ : ℝ)
    (h₁l : -40 ≤ t₁) (_h₁u : t₁ ≤ 40) (_h₂l : -40 ≤ t₂) (_h₂u : t₂ ≤ 40)
    (hlt : t₁ < t₂) :
    e_sat_air t₁ < e_sat_air t₂ ∧ e_sat_snow t₁ < e_sat_snow t₂ := by
  have harg : 17.67 * t₁ / (243.5 + t₁) < 17.67 * t₂ / (243.5 + t₂) := by
    have hd₁ : (0 : ℝ) < 243.5 + t₁ := by linarith
    have hd₂ : (0 : ℝ) < 243.5 + t₂ := by linarith
    rw [div_lt_div_iff₀ hd₁ hd₂]
    nlinarith
  have hexp := Real.exp_lt_exp.mpr harg
  constructor
  · unfold e_sat_air
    nlinarith [Real.exp_pos (17.67 * t₁ / (243.5 + t₁))]
  · unfold e_sat_snow
    nlinarith [Real.exp_pos (17.67 * t₁ / (243.5 + t₁))]

/-- Witness for C10 at the concrete pair 0 and 1 degrees C. -/
theorem c10_e_sat_strict_mono_witness :
    e_sat_air 0 < e_sat_air 1 ∧ e_sat_snow 0 < e_sat_snow 1 :=
  c10_e_sat_strict_mono 0 1 (by norm_num) (by norm_num) (by norm_num)
    (by norm_num) (by norm_num)

/-- For a nonzero air temperature the air_tmp factor cancels from the
bulk Richardson number of src line 125. -/
theorem R_i_air_cancel (a w : ℝ) (ha : a ≠ 0) :
    R_i a w = 2 * 10 * Z_A / 100 / (27.78 * w) ^ 2 := by
  unfold R_i
  rw [show 2 * 10 * Z_A / 100 * a = a * (2 * 10 * Z_A / 100) by ring]
  exact mul_div_mul_left _ _ ha

/-- C1: per cell, zeta carries the stable formula where R_i is positive,
the unstable formula (with gamma spelled out) where R_i is negative, and
keeps its zero initialization where R_i is zero. -/
theorem c1_zeta_branch_formulas (a w : ℝ) :
    (R_i a w > 0 → zeta a w = 1 / (1 + 4.7 * R_i a w) ^ 2) ∧
    (R_i a w < 0 → zeta a w =
      1 - 9.4 * R_i a w
        / (1 + 5.3 * 9.4 * d_h_e w / w * Real.sqrt (Z_A / Z_0)
            * Real.sqrt |R_i a w|)) ∧
    (R_i a w = 0 → zeta a w = 0) := by
  refine ⟨fun h => ?_, fun h => ?_, fun h => ?_⟩
  · rw [zeta, if_pos h]
  · rw [zeta, if_neg (by linarith), if_pos h, gamma]
  · rw [zeta, if_neg (by simp [h]), if_neg (by simp [h])]

/-- Witness for C1: the stable branch at air 1, wind 2 and the zero
fall-through at air 0, wind 2. -/
theorem c1_zeta_branch_formulas_witness :
    zeta 1 2 = 1 / (1 + 4.7 * R_i 1 2) ^ 2 ∧ zeta 0 2 = 0 := by
  constructor
  · exact (c1_zeta_branch_formulas 1 2).1 (by norm_num [R_i, Z_A])
  · exact (c1_zeta_branch_formulas 0 2).2.2 (by norm_num [R_i])

/-- C7: at any cell with nonzero air temperature and nonzero wind the
Richardson number reduces to a positive quantity that does not involve
air_tmp, so only the stable branch of zeta can fire. -/
theorem c7_stable_branch_always (a w : ℝ) (ha : a ≠ 0) (hw : w ≠ 0) :
    R_i a w = 2 * 10 * (Z_A / 100) / (27.78 * w) ^ 2 ∧
    0 < R_i a w ∧
    zeta a w = 1 / (1 + 4.7 * R_i a w) ^ 2 := by
  have h0 : (27.78 : ℝ) * w ≠ 0 := mul_ne_zero (by norm_num) hw
  have hden : (0 : ℝ) < (27.78 * w) ^ 2 := pow_two_pos_of_ne_zero h0
  have hRi : R_i a w = 2 * 10 * Z_A / 100 / (27.78 * w) ^ 2 :=
    R_i_air_cancel a w ha
  have hpos : 0 < R_i a w := by
    rw [hRi]
    exact div_pos (by norm_num [Z_A]) hden
  refine ⟨by rw [hRi]; ring, hpos, ?_⟩
  rw [zeta, if_pos hpos]

/-- Witness for C7 at air 1, wind 2. -/
theorem c7_stable_branch_always_witness :
    R_i 1 2 = 2 * 10 * (Z_A / 100) / (27.78 * 2) ^ 2 ∧
    0 < R_i 1 2 ∧
    zeta 1 2 = 1 / (1 + 4.7 * R_i 1 2) ^ 2 :=
  c7_stable_branch_always 1 2 (by norm_num) (by norm_num)

/-- C8: zeta is insensitive to the air temperature grid as long as it is
nonzero everywhere, because air_tmp cancels from R_i and gamma never
reads it. -/
theorem c8_zeta_independent_of_air_tmp (a₁ a₂ w : ℝ)
    (h₁ : a₁ ≠ 0) (h₂ : a₂ ≠ 0) :
    zeta a₁ w = zeta a₂ w := by
  have hR : R_i a₁ w = R_i a₂ w := by
    rw [R_i_air_cancel a₁ w h₁, R_i_air_cancel a₂ w h₂]
  unfold zeta
  rw [hR]

/-- Witness for C8 at air temperatures 1 and -3, wind 2. -/
theorem c8_zeta_independent_of_air_tmp_witness :
    zeta 1 2 = zeta (-3) 2 :=
  c8_zeta_independent_of_air_tmp 1 (-3) 2 (by norm_num) (by norm_num)

/-- At air_tmp 0 the Richardson expression is 0 / 0, which the real
embedding evaluates to 0 (numpy produces NaN; both select the zero
fall-through of the zeta update). -/
theorem R_i_air_zero (w : ℝ) : R_i 0 w = 0 := by
  simp [R_i]

/-- At air_tmp 0 the stability correction keeps its zero initialization. -/
theorem zeta_air_zero (w : ℝ) : zeta 0 w = 0 := by
  simp [zeta, R_i_air_zero]

/-- C2 (amended value): in the uniform scenario air 0, snow 0,
pres 87000, spfh 0.003, wind 2, dlw 250, resolution 500, the sensible
and latent heat are exactly 0 at every cell (finite and near zero,
through the zero stability correction and the zero temperature
difference), and the upwelling longwave is the input-independent
constant 0.98 * 5.67e-8 * 273.16^4, which lies between 309 and 310
W/m^2. -/
theorem c2_uniform_scenario (pa500 pa30 : ℝ) :
    SH 500 pa500 pa30 0 0 87000 2 = 0 ∧
    LH 500 pa500 pa30 0 0 87000 0.003 2 = 0 ∧
    ULW 0 = 0.98 * 5.67 * (10 : ℝ) ^ (-8 : ℤ) * 273.16 ^ 4 ∧
    309 < ULW 0 ∧ ULW 0 < 310 := by
  refine ⟨?_, ?_, ?_, ?_, ?_⟩
  · simp [SH, zeta_air_zero]
  · simp [LH, zeta_air_zero]
  · norm_num [ULW]
  · norm_num [ULW]
  · norm_num [ULW]

/-- Counterexample for C2 as stated: the fixed upwelling longwave value
is not approximately 305.5 W/m^2; it exceeds 308.5. -/
theorem c2_ulw_value_counterexample :
    ULW 0 ≠ 305.5 ∧ 305.5 + 3 < ULW 0 := by
  norm_num [ULW]

/-- C4: where the canopy fraction is zero and the atmospheric emissivity
is nonzero, the weighted emissivity collapses to the atmospheric
emissivity and the canopy-corrected downwelling longwave returns the
input dlw exactly. -/
theorem c4_canopy_zero_roundtrip (fc air_tmp dlw : ℝ) (hfc : fc = 0)
    (hatm : atm_emissivity air_tmp dlw ≠ 0) :
    weighted_emissivity fc air_tmp dlw = atm_emissivity air_tmp dlw ∧
    CDLW fc air_tmp dlw = dlw := by
  subst hfc
  have hw : weighted_emissivity 0 air_tmp dlw = atm_emissivity air_tmp dlw := by
    rw [weighted_emissivity]
    norm_num
  refine ⟨hw, ?_⟩
  rw [CDLW, hw, mul_div_assoc, div_self hatm, mul_one]

/-- Witness for C4 at air 0, dlw 250. -/
theorem c4_canopy_zero_roundtrip_witness :
    weighted_emissivity 0 0 250 = atm_emissivity 0 250 ∧
    CDLW 0 0 250 = 250 :=
  c4_canopy_zero_roundtrip 0 0 250 rfl (by norm_num [atm_emissivity])

/-- At resolution 500 the standard pressure cancels between calc_b and
calc_SH, leaving a resolution-free sensible heat. -/
theorem SH_500_core (pa500 pa30 a s p w : ℝ) (h : pa500 ≠ 0) :
    SH 500 pa500 pa30 a s p w =
      SHcore a s p w * (0.24 * 10 ^ (6 : ℕ) * 3.6 * 11.62 / 10) := by
  have hc : pa500 * pa500⁻¹ = 1 := mul_inv_cancel₀ h
  unfold SH fu b SHcore
  norm_num [RHO_W]
  field_simp
  linear_combination
    (zeta a w * rho_a a p * (K ^ 2 / Real.log (Z_A / Z_0) ^ 2) * w * (a - s)
      * 1003968) * hc

/-- At resolution 30 the standard pressure cancels the same way. -/
theorem SH_30_core (pa500 pa30 a s p w : ℝ) (h : pa30 ≠ 0) :
    SH 30 pa500 pa30 a s p w =
      SHcore a s p w * (0.24 * 10 ^ (6 : ℕ) * 3.6 * 11.62 / 10) := by
  have hc : pa30 * pa30⁻¹ = 1 := mul_inv_cancel₀ h
  unfold SH fu b SHcore
  norm_num [RHO_W]
  field_simp
  linear_combination
    (zeta a w * rho_a a p * (K ^ 2 / Real.log (Z_A / Z_0) ^ 2) * w * (a - s)
      * 1003968) * hc

/-- At resolution 500 the latent heat scales with the reciprocal of the
500 m standard pressure. -/
theorem LH_500_core (pa500 pa30 a s p q w : ℝ) :
    LH 500 pa500 pa30 a s p q w = LHcore a s p q w * lhconst / pa500 := by
  unfold LH fu b LHcore lhconst
  norm_num [RHO_W]
  ring

/-- At resolution 30 the latent heat scales with the reciprocal of the
30 m standard pressure. -/
theorem LH_30_core (pa500 pa30 a s p q w : ℝ) :
    LH 30 pa500 pa30 a s p q w = LHcore a s p q w * lhconst / pa30 := by
  unfold LH fu b LHcore lhconst
  norm_num [RHO_W]
  ring

/-- C3 (amended): with both standard-pressure values nonzero, switching
the resolution changes the latent heat at every cell where the two
pressure grids differ and the latent heat is nonzero, but the sensible
heat is identical at every cell because the pressure cancels between
calc_b and calc_SH. -/
theorem c3_resolution_switch (pa500 pa30 a s p q w : ℝ)
    (h500 : pa500 ≠ 0) (h30 : pa30 ≠ 0) (hne : pa500 ≠ pa30)
    (hLH : LH 500 pa500 pa30 a s p q w ≠ 0) :
    SH 500 pa500 pa30 a s p w = SH 30 pa500 pa30 a s p w ∧
    LH 500 pa500 pa30 a s p q w ≠ LH 30 pa500 pa30 a s p q w := by
  constructor
  · rw [SH_500_core pa500 pa30 a s p w h500, SH_30_core pa500 pa30 a s p w h30]
  · rw [LH_500_core] at hLH ⊢
    rw [LH_30_core]
    have hM : LHcore a s p q w * lhconst ≠ 0 := by
      intro h0
      exact hLH (by rw [h0, zero_div])
    intro heq
    rw [div_eq_div_iff h500 h30] at heq
    exact hne (mul_left_cancel₀ hM heq).symm

/-- The roughness-length ratio has a positive natural logarithm. -/
theorem log_ZAZ0_pos : 0 < Real.log (Z_A / Z_0) :=
  Real.log_pos (by norm_num [Z_A, Z_0])

/-- The squared transfer factor of calc_b is positive. -/
theorem Kterm_pos : 0 < K ^ 2 / Real.log (Z_A / Z_0) ^ 2 :=
  div_pos (by norm_num [K]) (pow_pos log_ZAZ0_pos 2)

/-- The stability correction at air 1, wind 2 is positive. -/
theorem zeta_1_2_pos : 0 < zeta 1 2 := by
  have hR : R_i 1 2 > 0 := by norm_num [R_i, Z_A]
  rw [zeta, if_pos hR]
  have h1 : 0 < 1 + 4.7 * R_i 1 2 := by linarith
  positivity

/-- The air density at air 1, pres 87000 is positive. -/
theorem rho_a_1_87000_pos : 0 < rho_a 1 87000 := by
  unfold rho_a R_SPECIFIC
  norm_num

/-- The resolution-free sensible-heat factor is positive at the sample
cell air 1, snow 0, pres 87000, wind 2. -/
theorem SHcore_sample_pos : 0 < SHcore 1 0 87000 2 := by
  unfold SHcore
  exact mul_pos (mul_pos (mul_pos (mul_pos zeta_1_2_pos rho_a_1_87000_pos)
    Kterm_pos) (by norm_num)) (by norm_num)

/-- The exponential factors of rh and e_sat_air cancel inside e_a, so
the air vapor pressure is the rational expression 0.263 p q 611.2 / 100,
independent of the air temperature. -/
theorem e_a_exp_cancel (a p q : ℝ) : e_a a p q = 0.263 * p * q * 611.2 / 100 := by
  unfold e_a rh e_sat_air
  rw [show a + 243.5 = 243.5 + a by ring]
  have h := Real.exp_ne_zero (17.67 * a / (243.5 + a))
  field_simp
  ring

/-- The resolution-free latent-heat factor is negative at the sample
cell air 1, snow 0, pres 87000, spfh 0.003, wind 2. -/
theorem LHcore_sample_neg : LHcore 1 0 87000 0.003 2 < 0 := by
  unfold LHcore
  have hd : e_a 1 87000 0.003 - e_sat_snow 0 < 0 := by
    rw [e_a_exp_cancel]
    unfold e_sat_snow
    norm_num [Real.exp_zero]
  exact mul_neg_of_pos_of_neg (mul_pos (mul_pos (mul_pos zeta_1_2_pos
    rho_a_1_87000_pos) Kterm_pos) (by norm_num)) hd

/-- The constant latent-heat multiplier is positive. -/
theorem lhconst_pos : 0 < lhconst := by
  norm_num [lhconst, L_S, PA_2_MB]

/-- Counterexample for C3 as stated: at the cell air 1, snow 0,
pres 87000, spfh 0.003, wind 2 with standard pressures 900 and 800, both
fluxes are nonzero and the two pressure values differ, yet the sensible
heat is the same at resolution 500 and resolution 30. -/
theorem c3_sh_equal_counterexample :
    (900 : ℝ) ≠ 800 ∧
    SH 500 900 800 1 0 87000 2 ≠ 0 ∧
    LH 500 900 800 1 0 87000 0.003 2 ≠ 0 ∧
    SH 500 900 800 1 0 87000 2 = SH 30 900 800 1 0 87000 2 := by
  refine ⟨by norm_num, ?_, ?_, ?_⟩
  · rw [SH_500_core 900 800 1 0 87000 2 (by norm_num)]
    exact ne_of_gt (mul_pos SHcore_sample_pos (by norm_num))
  · rw [LH_500_core]
    exact div_ne_zero
      (ne_of_lt (mul_neg_of_neg_of_pos LHcore_sample_neg lhconst_pos))
      (by norm_num)
  · rw [SH_500_core 900 800 1 0 87000 2 (by norm_num),
      SH_30_core 900 800 1 0 87000 2 (by norm_num)]

/-- Witness for the amended C3 at the same sample cell. -/
theorem c3_resolution_switch_witness :
    SH 500 900 800 1 0 87000 2 = SH 30 900 800 1 0 87000 2 ∧
    LH 500 900 800 1 0 87000 0.003 2 ≠ LH 30 900 800 1 0 87000 0.003 2 := by
  apply c3_resolution_switch 900 800 1 0 87000 0.003 2 (by norm_num)
    (by norm_num) (by norm_num)
  rw [LH_500_core]
  exact div_ne_zero
    (ne_of_lt (mul_neg_of_neg_of_pos LHcore_sample_neg lhconst_pos))
    (by norm_num)

/-- C5 (amended): the evaluator has no resolution validation: every
resolution other than 500 selects the 30 m standard-pressure grid in
calc_b (and in calc_SH), and construction never fails with the
unsupported-resolution configuration error -- when the canopy raster
for the requested resolution is missing it surfaces the resource-load
failure of the collaborator instead. -/
theorem c5_no_resolution_validation (res : ℤ) (hres : res ≠ 500)
    (canopyRaster : ℤ → Option ℝ) (pa500 pa30 a s p q w d : ℝ) :
    b res pa500 pa30 a p = b 30 pa500 pa30 a p ∧
    SH res pa500 pa30 a s p w = SH 30 pa500 pa30 a s p w ∧
    construct res canopyRaster pa500 pa30 a s p q w d ≠
      Except.error EvalError.unsupportedResolution := by
  have h30 : ¬((30 : ℤ) = 500) := by decide
  refine ⟨?_, ?_, ?_⟩
  · simp only [b, if_neg hres, if_neg h30]
  · simp only [SH, fu, b, if_neg hres, if_neg h30]
  · cases hcr : canopyRaster res with
    | none => simp [construct, hcr]
    | some raw => simp [construct, hcr]

/-- Witness for the amended C5 at resolution 250 with the repository
canopy loader (rasters present for 500 and 30 only). -/
theorem c5_no_resolution_validation_witness :
    b 250 900 800 1 87000 = b 30 900 800 1 87000 ∧
    SH 250 900 800 1 0 87000 2 = SH 30 900 800 1 0 87000 2 ∧
    construct 250 (fun r => if r = 500 ∨ r = 30 then some 40 else none)
        900 800 1 0 87000 0.003 2 250 ≠
      Except.error EvalError.unsupportedResolution :=
  c5_no_resolution_validation 250 (by decide) _ 900 800 1 0 87000 0.003 2 250

/-- Counterexample for C5 as stated: 250 is outside the supported set,
yet construction raises no unsupported-resolution error: with the
repository rasters (present only for 500 and 30) it surfaces the
resource-load failure of the collaborator, and with a collaborator able
to serve resolution 250 it completes outright. -/
theorem c5_counterexample :
    ¬((250 : ℤ) = 500 ∨ (250 : ℤ) = 30) ∧
    construct 250 (fun r => if r = 500 ∨ r = 30 then some 40 else none)
        900 800 1 0 87000 0.003 2 250 = Except.error EvalError.resourceLoad ∧
    constructOk
        (construct 250 (fun _ => some 40) 900 800 1 0 87000 0.003 2 250)
      = true := by
  refine ⟨by decide, rfl, rfl⟩

/-- Broadcasting a dimension against itself keeps it. -/
theorem bcastDim_self (n : ℕ) : bcastDim n n = some n := by
  simp [bcastDim]

/-- Broadcasting a dimension against extent 1 keeps it. -/
theorem bcastDim_one_right (n : ℕ) : bcastDim n 1 = some n := by
  rcases eq_or_ne n 1 with h | h <;> simp [bcastDim, h]

/-- Broadcasting a shape against itself keeps it. -/
theorem bcast_self (s : Shape) : bcast s s = some s := by
  simp [bcast, bcastDim_self]

/-- Broadcasting a shape against 1 x 1 keeps it. -/
theorem bcast_one_right (s : Shape) : bcast s 1 = some s := by
  show bcast s (1, 1) = some s
  simp [bcast, bcastDim_one_right]

/-- C6 (amended): the evaluator performs no shape validation.  Grids of
different dimensions that are numpy-broadcast-compatible evaluate to
completion: a 1 x 1 snow-temperature grid among r x c grids yields all
four outputs (two of them r x c, ULW 1 x 1).  Broadcast-incompatible
grids fail only at the first element-wise operation that combines them,
inside the chain, not through a dedicated pre-computation check. -/
theorem c6_no_shape_validation (r c : ℕ) :
    evalShapes
        { air_tmp := (r, c), snow_tmp := (1, 1), pres := (r, c),
          spfh := (r, c), wind := (r, c), dlw := (r, c), F_c := (r, c),
          P_A := (r, c) } =
      some ((r, c), (r, c), (r, c), (1, 1)) ∧
    evalShapes
        { air_tmp := (2, 3), snow_tmp := (2, 3), pres := (3, 2),
          spfh := (2, 3), wind := (2, 3), dlw := (2, 3), F_c := (2, 3),
          P_A := (2, 3) } = none := by
  constructor
  · simp [evalShapes, metShapes, zetaShape, emisShapes, lhShape, shShape,
      cdlwShape, bcast_self, bcast_one_right]
  · decide

/-- Counterexample for C6 as stated: with the snow-temperature grid
1 x 1 and every other grid 2 x 2 two grids have different dimensions,
yet the evaluation broadcasts through the whole chain and produces all
four output grids instead of failing before computation. -/
theorem c6_broadcast_counterexample :
    (((1, 1) : Shape) ≠ ((2, 2) : Shape)) ∧
    evalShapes
        { air_tmp := (2, 2), snow_tmp := (1, 1), pres := (2, 2),
          spfh := (2, 2), wind := (2, 2), dlw := (2, 2), F_c := (2, 2),
          P_A := (2, 2) } = some ((2, 2), (2, 2), (2, 2), (1, 1)) :=
  ⟨by decide, by decide⟩

end Snow17
